import Mathlib

/-!
Shallow embedding of the EduWrite application (src/app.py): the user/credit
data model, the daily credit reset, the greeting classifier, the AI client
construction, and the `/api/generate` request handler, together with proofs
of the documented properties.

Modelling choices:
* A UTC datetime is a calendar-day index plus seconds within the day;
  the only operation the source performs on datetimes is comparison of
  their `.date()` values, which becomes comparison of the `day` field.
  The source normalizes naive datetimes to UTC before comparing; here all
  values are already UTC.
* The document store is restricted to the state the handler touches: the
  record of the session user and the list of usage records.  Store round
  trips are assumed to succeed (the claims are about sequential, store-up
  behaviour).
* The AI adapter is represented by the environment facts the source reads
  (import success, API key, constructor outcome) plus the outcome of one
  `invoke` call, given as `Except`: `Except.error e` models the call
  raising an exception with text `e`.
* Python string primitives (`lower`, `strip`) are re-implemented on the
  character list; `lower` is ASCII-faithful, which covers every literal
  the classifier compares against.
-/

namespace EduWrite

/-- `DAILY_CREDITS` (app.py line 15). -/
def DAILY_CREDITS : Int := 50000

/-- A UTC datetime: calendar day index and second within the day.
`datetime.date()` comparison in the source becomes comparison of `day`. -/
structure PyDateTime where
  day : Nat
  sec : Nat
deriving DecidableEq, Repr

/-- `dt.date()`, abstracted to the day index (days compare like dates). -/
def PyDateTime.date (t : PyDateTime) : Nat := t.day

/-- The `User` model (app.py lines 82-91). -/
structure User where
  id : String
  username : String
  email : String
  password_hash : String
  credits : Int
  created_at : PyDateTime
  credits_last_reset : Option PyDateTime
  is_admin : Int
deriving DecidableEq, Repr

/-- `User.reset_credits_if_needed` (app.py lines 96-107).  `now` is the
current UTC datetime, passed explicitly.  `last_reset` is
`credits_last_reset or created_at`; if the current date is strictly later
the credits are reset to `DAILY_CREDITS` and the reset timestamp to `now`
(both in the store and on the object), otherwise nothing changes. -/
def User.reset_credits_if_needed (self : User) (now : PyDateTime) : User :=
  let last_reset := self.credits_last_reset.getD self.created_at
  if last_reset.date < now.date then
    { self with credits := DAILY_CREDITS, credits_last_reset := some now }
  else
    self

/-- The user document inserted by `register` (app.py lines 181-189). -/
def register_user (username email password_hash id : String)
    (now : PyDateTime) : User :=
  { id := id
    username := username
    email := email
    password_hash := password_hash
    credits := DAILY_CREDITS
    created_at := now
    credits_last_reset := some now
    is_admin := 0 }

/-- Characters Python `str.strip()` removes (ASCII whitespace). -/
def pyIsSpace (c : Char) : Bool :=
  c = ' ' || c = '\t' || c = '\n' || c = '\r' || c = '\x0b' || c = '\x0c'

/-- Python `s.strip(...)`: drop the characters satisfying `p` from both
ends of the string. -/
def pyStrip (p : Char → Bool) (s : String) : String :=
  String.mk (((s.data.dropWhile p).reverse.dropWhile p).reverse)

/-- Python `s.lower()` (ASCII-faithful). -/
def pyLower (s : String) : String :=
  String.mk (s.data.map Char.toLower)

/-- The literal greeting list (app.py line 249). -/
def greetings : List String :=
  ["hi", "hello", "hey", "how are you", "hi there", "hello there",
   "good morning", "good afternoon", "good evening"]

/-- `topic.lower().strip().strip('?').strip('!')` (app.py line 250). -/
def clean_topic (topic : String) : String :=
  pyStrip (fun c => c = '!')
    (pyStrip (fun c => c = '?') (pyStrip pyIsSpace (pyLower topic)))

/-- `clean_topic in greetings` (app.py line 252). -/
def is_greeting (topic : String) : Bool :=
  greetings.contains (clean_topic topic)

/-- The canned small-talk response (app.py line 253). -/
def GREETING_RESPONSE : String :=
  "Hi! I am EduWrite, your personal AI assistant. I am fine, how do you do? Is there anything interesting you would like to know?"

/-- The fallback content used when no AI client is available
(app.py line 281). -/
def FALLBACK_RESPONSE : String := "AI service not configured."

/-- The environment facts `get_ai_client` reads, plus the outcome of one
`ai_client.invoke` call.  `invoke = Except.error e` models the call
raising an exception whose string form is `e`. -/
structure AIEnv where
  ai_available : Bool
  groq_api_key : Option String
  ctor_raises : Bool
  invoke : Except String String
deriving Repr

/-- A constructed AI client, carrying the outcome its `invoke` will have. -/
inductive AIClient where
  | available (invoke : Except String String)
deriving Repr

/-- `get_ai_client` (app.py lines 39-50): `none` when the AI import
failed, when `GROQ_API_KEY` is unset or empty (Python falsy), or when the
`ChatGroq` constructor raises (the internal `try` returns `None`). -/
def get_ai_client (env : AIEnv) : Option AIClient :=
  if !env.ai_available || env.groq_api_key.getD "" = "" then none
  else if env.ctor_raises then none
  else some (.available env.invoke)

/-- A document of the `usage` collection (app.py lines 288-293). -/
structure UsageRecord where
  user_id : String
  topic : String
  response : String
  created_at : PyDateTime
deriving DecidableEq, Repr

/-- The store state `/api/generate` touches: the session user record
(`none` when the id no longer resolves) and the usage collection. -/
structure Store where
  user : Option User
  usage : List UsageRecord
deriving DecidableEq, Repr

/-- The JSON body of a `/api/generate` request; `none` models an absent
field (`data.get` default applies). -/
structure GenRequest where
  topic : Option String
  contentType : Option String
  level : Option String
deriving DecidableEq, Repr

/-- Outcome of `/api/generate`: a 200 body `{content, credits_left}` or an
error body `{error}` with its HTTP status. -/
inductive GenResult where
  | ok (content : String) (credits_left : Int)
  | error (status : Nat) (message : String)
deriving DecidableEq, Repr

/-- The `/api/generate` handler (app.py lines 223-303), sequentially.
Order as in the source: trim and validate the topic (400), load the user
(404), credit gate (402), greeting short-circuit (canned response, no
store write), then construct the AI client; a raise inside
`ai_client.invoke` reaches the outer `except`, which returns status 500
with `str(e)` as the message; otherwise the AI text (or the fallback when
no client) is used, the credits are decremented by one, a usage record is
inserted, and the response carries `user.credits - 1` computed from the
value read at load time.  `contentType`/`level` only feed the AI prompt,
whose outcome `env.invoke` already abstracts. -/
def generate (env : AIEnv) (now : PyDateTime) (req : GenRequest)
    (st : Store) : GenResult × Store :=
  let topic := pyStrip pyIsSpace (req.topic.getD "")
  if topic = "" then
    (.error 400 "Topic is required", st)
  else
    match st.user with
    | none => (.error 404 "User not found", st)
    | some user =>
      if user.credits ≤ 0 then
        (.error 402 "No credits left", st)
      else if is_greeting topic then
        (.ok GREETING_RESPONSE user.credits, st)
      else
        let proceed : String → GenResult × Store := fun response =>
          (.ok response (user.credits - 1),
           { st with
               user := some { user with credits := user.credits - 1 }
               usage := st.usage ++
                 [{ user_id := user.id, topic := topic,
                    response := response, created_at := now }] })
        match get_ai_client env with
        | some (.available (.ok content)) => proceed content
        | some (.available (.error e)) => (.error 500 e, st)
        | none => proceed FALLBACK_RESPONSE

/-! ### Concrete fixtures used by witnesses and counterexamples -/

/-- A registered user holding 5 credits. -/
def u_five : User :=
  { id := "u1", username := "alice", email := "alice@example.com",
    password_hash := "hash", credits := 5, created_at := ⟨100, 0⟩,
    credits_last_reset := some ⟨100, 0⟩, is_admin := 0 }

/-- The same user with an exhausted balance. -/
def u_zero : User :=
  { u_five with credits := 0 }

/-- Environment with the AI library missing and no API key: the handler
must fall back. -/
def env_off : AIEnv :=
  { ai_available := false, groq_api_key := none, ctor_raises := false,
    invoke := .error "unreachable" }

/-- Environment with a working client whose `invoke` raises (a transport
failure during the call). -/
def env_raise (e : String) : AIEnv :=
  { ai_available := true, groq_api_key := some "gsk_key",
    ctor_raises := false, invoke := .error e }

/-- Environment with a working client that returns `content`. -/
def env_ok (content : String) : AIEnv :=
  { ai_available := true, groq_api_key := some "gsk_key",
    ctor_raises := false, invoke := .ok content }

/-! ### Branch lemmas for the handler -/

/-- `reset_credits_if_needed` as a single conditional. -/
lemma reset_credits_if_needed_eq (u : User) (now : PyDateTime) :
    u.reset_credits_if_needed now =
      if (u.credits_last_reset.getD u.created_at).date < now.date then
        { u with credits := DAILY_CREDITS, credits_last_reset := some now }
      else u := rfl

/-- Empty (post-trim) topic: status 400, store untouched. -/
lemma generate_empty_400 (env : AIEnv) (now : PyDateTime) (req : GenRequest)
    (st : Store) (he : pyStrip pyIsSpace (req.topic.getD "") = "") :
    generate env now req st = (.error 400 "Topic is required", st) := by
  unfold generate
  simp [he]

/-- Exhausted credits: status 402, store untouched, AI environment
irrelevant. -/
lemma generate_gate_402 (env : AIEnv) (now : PyDateTime) (req : GenRequest)
    (st : Store) (user : User) (hu : st.user = some user)
    (hne : pyStrip pyIsSpace (req.topic.getD "") ≠ "")
    (hz : user.credits ≤ 0) :
    generate env now req st = (.error 402 "No credits left", st) := by
  unfold generate
  simp [hu, hne, hz]

/-- Greeting topic with a positive balance: canned text, un-debited
balance, store untouched. -/
lemma generate_greeting_path (env : AIEnv) (now : PyDateTime)
    (req : GenRequest) (st : Store) (user : User) (topic : String)
    (hu : st.user = some user) (hpos : 0 < user.credits)
    (ht : pyStrip pyIsSpace (req.topic.getD "") = topic) (hne : topic ≠ "")
    (hg : is_greeting topic = true) :
    generate env now req st = (.ok GREETING_RESPONSE user.credits, st) := by
  unfold generate
  have hz : ¬ user.credits ≤ 0 := by omega
  simp [ht, hne, hu, hz, hg]

/-- Non-greeting topic, positive balance, AI raising inside `invoke`:
status 500 carrying the exception text, store untouched. -/
lemma generate_invoke_raises_500 (env : AIEnv) (now : PyDateTime)
    (req : GenRequest) (st : Store) (user : User) (topic e : String)
    (hu : st.user = some user) (hpos : 0 < user.credits)
    (ht : pyStrip pyIsSpace (req.topic.getD "") = topic) (hne : topic ≠ "")
    (hg : is_greeting topic = false)
    (hai : get_ai_client env = some (.available (.error e))) :
    generate env now req st = (.error 500 e, st) := by
  unfold generate
  have hz : ¬ user.credits ≤ 0 := by omega
  simp [ht, hne, hu, hz, hg, hai]

/-- Non-greeting topic, positive balance, AI answering (or absent, with
the fallback text): debit of one, one appended usage record, response
carrying `credits - 1`. -/
lemma generate_ai_path (env : AIEnv) (now : PyDateTime) (req : GenRequest)
    (st : Store) (user : User) (topic response : String)
    (hu : st.user = some user) (hpos : 0 < user.credits)
    (ht : pyStrip pyIsSpace (req.topic.getD "") = topic) (hne : topic ≠ "")
    (hg : is_greeting topic = false)
    (hai : get_ai_client env = some (.available (.ok response)) ∨
           (get_ai_client env = none ∧ response = FALLBACK_RESPONSE)) :
    generate env now req st =
      (.ok response (user.credits - 1),
       { st with
           user := some { user with credits := user.credits - 1 },
           usage := st.usage ++
             [{ user_id := user.id, topic := topic,
                response := response, created_at := now }] }) := by
  unfold generate
  have hz : ¬ user.credits ≤ 0 := by omega
  rcases hai with hai | ⟨hai, hresp⟩
  · simp [ht, hne, hu, hz, hg, hai]
  · subst hresp
    simp [ht, hne, hu, hz, hg, hai]

/-! ### Claims -/

/-- Claim C1: `reset_credits_if_needed` leaves the record unchanged when
the current UTC date equals the date of `lastReset` (which is
`credits_last_reset`, or `created_at` when that is null); when the
current date is strictly greater it sets `credits` to exactly
`DAILY_CREDITS` and `credits_last_reset` to `now`; the resulting credits
are never negative (given the non-negativity invariant on entry); and a
second call on the same calendar day never resets again. -/
theorem c1_reset_credits_accounting (u : User) (now : PyDateTime)
    (h : 0 ≤ u.credits) :
    (now.date = (u.credits_last_reset.getD u.created_at).date →
        u.reset_credits_if_needed now = u)
  ∧ ((u.credits_last_reset.getD u.created_at).date < now.date →
        (u.reset_credits_if_needed now).credits = DAILY_CREDITS ∧
        (u.reset_credits_if_needed now).credits_last_reset = some now)
  ∧ 0 ≤ (u.reset_credits_if_needed now).credits
  ∧ (∀ later : PyDateTime, later.date = now.date →
        (u.reset_credits_if_needed now).reset_credits_if_needed later
          = u.reset_credits_if_needed now) := by
  rw [reset_credits_if_needed_eq]
  by_cases hlt : (u.credits_last_reset.getD u.created_at).date < now.date
  · rw [if_pos hlt]
    refine ⟨fun heq => absurd hlt (by omega), fun _ => ⟨rfl, rfl⟩,
      show (0 : Int) ≤ DAILY_CREDITS by decide, ?_⟩
    intro later hdate
    rw [reset_credits_if_needed_eq]
    exact if_neg (show ¬ now.date < later.date by omega)
  · rw [if_neg hlt]
    refine ⟨fun _ => rfl, fun hlt2 => absurd hlt2 hlt, h, ?_⟩
    intro later hdate
    rw [reset_credits_if_needed_eq]
    exact if_neg (by omega)

/-- Witness for C1 at a concrete record and a next-day timestamp. -/
theorem c1_reset_credits_accounting_witness :
    (0 : Int) ≤ u_five.credits ∧
    (u_five.reset_credits_if_needed ⟨101, 5⟩).credits = DAILY_CREDITS :=
  ⟨by decide,
   ((c1_reset_credits_accounting u_five ⟨101, 5⟩ (by decide)).2.1
      (by decide)).1⟩

/-- Counterexample to Claim C2: with `credits = 0` the greeting topic
"hi" is answered with status 402, not with the canned greeting response,
because the credit gate runs before the greeting check. -/
theorem c2_greeting_gate_counterexample :
    generate env_off ⟨100, 1⟩ ⟨some "hi", none, none⟩ ⟨some u_zero, []⟩
      = (.error 402 "No credits left", ⟨some u_zero, []⟩) := by rfl

/-- Claim C2 (amended): the greeting short-circuit is evaluated after the
credit gate.  For a user with a positive balance a greeting topic is
answered with the canned text and the current un-debited balance, with no
debit and no usage record; for a user with `credits <= 0` even a greeting
topic fails with status 402. -/
theorem c2_greeting_after_credit_gate (env : AIEnv) (now : PyDateTime)
    (req : GenRequest) (st : Store) (user : User) (topic : String)
    (hu : st.user = some user)
    (ht : pyStrip pyIsSpace (req.topic.getD "") = topic) (hne : topic ≠ "")
    (hg : is_greeting topic = true) :
    (0 < user.credits →
        generate env now req st = (.ok GREETING_RESPONSE user.credits, st))
  ∧ (user.credits ≤ 0 →
        generate env now req st = (.error 402 "No credits left", st)) := by
  constructor
  · intro hpos
    exact generate_greeting_path env now req st user topic hu hpos ht hne hg
  · intro hz
    refine generate_gate_402 env now req st user hu ?_ hz
    rw [ht]; exact hne

/-- Witness for the amended C2 at topic "hi" and a 5-credit user. -/
theorem c2_greeting_after_credit_gate_witness :
    generate env_off ⟨100, 1⟩ ⟨some "hi", none, none⟩ ⟨some u_five, []⟩
      = (.ok GREETING_RESPONSE u_five.credits, ⟨some u_five, []⟩) :=
  (c2_greeting_after_credit_gate env_off ⟨100, 1⟩ ⟨some "hi", none, none⟩
      ⟨some u_five, []⟩ u_five "hi" rfl (by decide) (by decide)
      (by decide)).1 (by decide)

/-- Claim C3: a successful non-greeting request by a user with `n > 0`
credits answers `credits_left = n - 1`, stores `credits = n - 1`, and
appends exactly one usage record carrying the (trimmed) topic text and the
exact response text returned. -/
theorem c3_debit_and_ledger (env : AIEnv) (now : PyDateTime)
    (req : GenRequest) (st : Store) (user : User) (topic response : String)
    (hu : st.user = some user) (hpos : 0 < user.credits)
    (ht : pyStrip pyIsSpace (req.topic.getD "") = topic) (hne : topic ≠ "")
    (hg : is_greeting topic = false)
    (hai : get_ai_client env = some (.available (.ok response)) ∨
           (get_ai_client env = none ∧ response = FALLBACK_RESPONSE)) :
    generate env now req st =
      (.ok response (user.credits - 1),
       { st with
           user := some { user with credits := user.credits - 1 },
           usage := st.usage ++
             [{ user_id := user.id, topic := topic,
                response := response, created_at := now }] }) :=
  generate_ai_path env now req st user topic response hu hpos ht hne hg hai

/-- Witness for C3: a working AI client, topic "algebra", 5 credits. -/
theorem c3_debit_and_ledger_witness :
    generate (env_ok "Lesson text.") ⟨100, 1⟩ ⟨some "algebra", none, none⟩
        ⟨some u_five, []⟩
      = (.ok "Lesson text." (u_five.credits - 1),
         ⟨some { u_five with credits := u_five.credits - 1 },
          [⟨"u1", "algebra", "Lesson text.", ⟨100, 1⟩⟩]⟩) :=
  c3_debit_and_ledger (env_ok "Lesson text.") ⟨100, 1⟩
    ⟨some "algebra", none, none⟩ ⟨some u_five, []⟩ u_five "algebra"
    "Lesson text." rfl (by decide) (by decide) (by decide) (by decide)
    (Or.inl rfl)

/-- Claim C4: a request with a non-empty topic by a user with
`credits <= 0` fails with status 402, for every AI environment, and the
store is untouched: no debit, no AI effect, no usage record. -/
theorem c4_insufficient_credits_gate (env : AIEnv) (now : PyDateTime)
    (req : GenRequest) (st : Store) (user : User)
    (hu : st.user = some user) (hz : user.credits ≤ 0)
    (hne : pyStrip pyIsSpace (req.topic.getD "") ≠ "") :
    generate env now req st = (.error 402 "No credits left", st) :=
  generate_gate_402 env now req st user hu hne hz

/-- Witness for C4 at an exhausted user, with a working AI client. -/
theorem c4_insufficient_credits_gate_witness :
    generate (env_ok "Lesson text.") ⟨100, 1⟩ ⟨some "algebra", none, none⟩
        ⟨some u_zero, []⟩
      = (.error 402 "No credits left", ⟨some u_zero, []⟩) :=
  c4_insufficient_credits_gate (env_ok "Lesson text.") ⟨100, 1⟩
    ⟨some "algebra", none, none⟩ ⟨some u_zero, []⟩ u_zero rfl (by decide)
    (by decide)

/-- Counterexample to Claim C5: "hi!!", with two trailing marks, does
classify as a greeting, because Python `strip` removes every leading and
trailing occurrence, not exactly one. -/
theorem c5_two_marks_counterexample : is_greeting "hi!!" = true := by decide

/-- Claim C5 (amended): classification is case-insensitive, trims
surrounding whitespace, and then strips all leading and trailing `?`
characters followed by all leading and trailing `!` characters; hence a
phrase with one trailing `?` or `!` classifies the same as the bare
phrase, and so do "p??", "p!!" and "p!?" — while "hi?!" does not, since
the `?` is no longer at an end when `?`-stripping runs. -/
theorem c5_strip_all_marks :
    (greetings.all fun p =>
        is_greeting p && is_greeting (p ++ "?") && is_greeting (p ++ "!")
          && is_greeting (p ++ "??") && is_greeting (p ++ "!!")
          && is_greeting (p ++ "!?")) = true
  ∧ is_greeting "  Hi?  " = true
  ∧ is_greeting "hi?!" = false :=
  ⟨by decide, by decide, by decide⟩

/-- Claim C6: a topic that is empty or whitespace-only after trimming
(also an absent topic field) fails with status 400 and the store is
untouched. -/
theorem c6_empty_topic_rejected (env : AIEnv) (now : PyDateTime)
    (req : GenRequest) (st : Store)
    (he : pyStrip pyIsSpace (req.topic.getD "") = "") :
    generate env now req st = (.error 400 "Topic is required", st) :=
  generate_empty_400 env now req st he

/-- Witness for C6 at a whitespace-only topic. -/
theorem c6_empty_topic_rejected_witness :
    generate env_off ⟨100, 1⟩ ⟨some "   ", none, none⟩ ⟨some u_five, []⟩
      = (.error 400 "Topic is required", ⟨some u_five, []⟩) :=
  c6_empty_topic_rejected env_off ⟨100, 1⟩ ⟨some "   ", none, none⟩
    ⟨some u_five, []⟩ (by decide)

/-- Counterexample to Claim C7: a transport failure during the `invoke`
call does fail the request — it surfaces as status 500, not as the
fallback placeholder, and nothing is debited or recorded. -/
theorem c7_transport_failure_counterexample :
    generate (env_raise "connection timed out") ⟨100, 1⟩
        ⟨some "binary search trees", none, none⟩ ⟨some u_five, []⟩
      = (.error 500 "connection timed out", ⟨some u_five, []⟩) := by rfl

/-- Claim C7 (amended): the fallback placeholder is used exactly when no
AI client could be constructed — the AI import failed, the API key is
unset or empty, or the client constructor raised; in that case the
placeholder is returned as the content and recorded in the usage record.
An exception raised during the `invoke` call itself instead propagates as
a status-500 error with no fallback. -/
theorem c7_fallback_only_on_no_client (env : AIEnv) (now : PyDateTime)
    (req : GenRequest) (st : Store) (user : User) (topic : String)
    (hu : st.user = some user) (hpos : 0 < user.credits)
    (ht : pyStrip pyIsSpace (req.topic.getD "") = topic) (hne : topic ≠ "")
    (hg : is_greeting topic = false) :
    ((env.ai_available = false ∨ env.groq_api_key.getD "" = ""
        ∨ env.ctor_raises = true) → get_ai_client env = none)
  ∧ (get_ai_client env = none →
        generate env now req st =
          (.ok FALLBACK_RESPONSE (user.credits - 1),
           { st with
               user := some { user with credits := user.credits - 1 },
               usage := st.usage ++
                 [{ user_id := user.id, topic := topic,
                    response := FALLBACK_RESPONSE, created_at := now }] }))
  ∧ (∀ e, get_ai_client env = some (.available (.error e)) →
        generate env now req st = (.error 500 e, st)) := by
  refine ⟨?_, ?_, ?_⟩
  · intro hmis
    unfold get_ai_client
    rcases hmis with hmis | hmis | hmis
    · simp [hmis]
    · simp [hmis]
    · by_cases hk : (!env.ai_available
          || decide (env.groq_api_key.getD "" = "")) = true
      · simp [hk]
      · simp [hk, hmis]
  · intro hnone
    exact generate_ai_path env now req st user topic FALLBACK_RESPONSE hu
      hpos ht hne hg (Or.inr ⟨hnone, rfl⟩)
  · intro e he
    exact generate_invoke_raises_500 env now req st user topic e hu hpos ht
      hne hg he

/-- Witness for the amended C7 with the AI library and key both absent. -/
theorem c7_fallback_only_on_no_client_witness :
    generate env_off ⟨100, 1⟩ ⟨some "algebra", none, none⟩ ⟨some u_five, []⟩
      = (.ok FALLBACK_RESPONSE (u_five.credits - 1),
         ⟨some { u_five with credits := u_five.credits - 1 },
          [⟨"u1", "algebra", FALLBACK_RESPONSE, ⟨100, 1⟩⟩]⟩) :=
  (c7_fallback_only_on_no_client env_off ⟨100, 1⟩
      ⟨some "algebra", none, none⟩ ⟨some u_five, []⟩ u_five "algebra" rfl
      (by decide) (by decide) (by decide) (by decide)).2.1 (by rfl)

/-- Counterexample to Claim C8: the status-500 body carries the
exception text itself — the server-side detail is exposed to the caller,
not replaced by a generic message. -/
theorem c8_detail_exposed_counterexample :
    (generate (env_raise "ValueError: secret internal detail") ⟨100, 1⟩
        ⟨some "quantum physics", none, none⟩ ⟨some u_five, []⟩).1
      = .error 500 "ValueError: secret internal detail" := by rfl

/-- Claim C8 (amended): an unexpected failure inside the handler (here:
the AI call raising) is caught and surfaced to the caller as status 500,
but the response message is the string form of the exception itself
(`str(e)`), so the server-side detail is exposed to the caller; the
traceback is printed server-side, and no store write happens. -/
theorem c8_error_surfaced_with_detail (env : AIEnv) (now : PyDateTime)
    (req : GenRequest) (st : Store) (user : User) (topic e : String)
    (hu : st.user = some user) (hpos : 0 < user.credits)
    (ht : pyStrip pyIsSpace (req.topic.getD "") = topic) (hne : topic ≠ "")
    (hg : is_greeting topic = false)
    (hai : get_ai_client env = some (.available (.error e))) :
    generate env now req st = (.error 500 e, st) :=
  generate_invoke_raises_500 env now req st user topic e hu hpos ht hne hg
    hai

/-- Witness for the amended C8 at a concrete raising environment. -/
theorem c8_error_surfaced_with_detail_witness :
    generate (env_raise "boom") ⟨100, 1⟩ ⟨some "calculus", none, none⟩
        ⟨some u_five, []⟩ = (.error 500 "boom", ⟨some u_five, []⟩) :=
  c8_error_surfaced_with_detail (env_raise "boom") ⟨100, 1⟩
    ⟨some "calculus", none, none⟩ ⟨some u_five, []⟩ u_five "calculus"
    "boom" rfl (by decide) (by decide) (by decide) (by decide) (by rfl)

/-- Counterexample to Claim C9: "who are you" does not classify — it is
absent from the single greeting list — so it takes the AI path: with no
client configured it is answered by the fallback text, one credit is
debited, and a usage record is written, instead of an identity-kind
canned response. -/
theorem c9_who_are_you_counterexample :
    is_greeting "who are you" = false
  ∧ generate env_off ⟨100, 1⟩ ⟨some "who are you", none, none⟩
        ⟨some u_five, []⟩
      = (.ok FALLBACK_RESPONSE 4,
         ⟨some { u_five with credits := 4 },
          [⟨"u1", "who are you", FALLBACK_RESPONSE, ⟨100, 1⟩⟩]⟩) :=
  ⟨by decide, by rfl⟩

/-- Claim C9 (amended): the classifier matches the normalized topic
against one single literal list, which contains the greeting phrases and
the well-being phrase "how are you" but not "who are you"; every match is
answered with the same single canned response and the un-debited
balance. -/
theorem c9_single_list_single_response (env : AIEnv) (now : PyDateTime)
    (req : GenRequest) (st : Store) (user : User) (topic : String)
    (hu : st.user = some user) (hpos : 0 < user.credits)
    (ht : pyStrip pyIsSpace (req.topic.getD "") = topic) (hne : topic ≠ "")
    (hg : is_greeting topic = true) :
    generate env now req st = (.ok GREETING_RESPONSE user.credits, st)
  ∧ is_greeting "how are you" = true
  ∧ is_greeting "who are you" = false :=
  ⟨generate_greeting_path env now req st user topic hu hpos ht hne hg,
   by decide, by decide⟩

/-- Witness for the amended C9 at topic "hello". -/
theorem c9_single_list_single_response_witness :
    generate env_off ⟨100, 1⟩ ⟨some "hello", none, none⟩ ⟨some u_five, []⟩
      = (.ok GREETING_RESPONSE u_five.credits, ⟨some u_five, []⟩) :=
  (c9_single_list_single_response env_off ⟨100, 1⟩ ⟨some "hello", none, none⟩
      ⟨some u_five, []⟩ u_five "hello" rfl (by decide) (by decide)
      (by decide) (by decide)).1

/-- Claim C10: `credits >= 0` is preserved by every core operation run
sequentially: registration stores exactly `DAILY_CREDITS`; the daily
reset either keeps the credits or sets them to `DAILY_CREDITS`; and the
handler either leaves the stored user untouched or debits one credit, and
it debits only when the gate saw a positive balance. -/
theorem c10_credits_nonneg_invariant :
    (∀ username email password_hash id now,
        (register_user username email password_hash id now).credits
          = DAILY_CREDITS ∧
        0 ≤ (register_user username email password_hash id now).credits)
  ∧ (∀ (u : User) (now : PyDateTime), 0 ≤ u.credits →
        0 ≤ (u.reset_credits_if_needed now).credits ∧
        ((u.reset_credits_if_needed now).credits = u.credits ∨
         (u.reset_credits_if_needed now).credits = DAILY_CREDITS))
  ∧ (∀ (env : AIEnv) (now : PyDateTime) (req : GenRequest) (st : Store)
        (u u' : User), st.user = some u → 0 ≤ u.credits →
        (generate env now req st).2.user = some u' →
        0 ≤ u'.credits ∧
        (u'.credits = u.credits ∨
         (0 < u.credits ∧ u'.credits = u.credits - 1))) := by
  refine ⟨fun username email password_hash id now =>
      ⟨rfl, show (0 : Int) ≤ DAILY_CREDITS by decide⟩,
    ?_, ?_⟩
  · intro u now h0
    rw [reset_credits_if_needed_eq]
    by_cases hlt : (u.credits_last_reset.getD u.created_at).date < now.date
    · rw [if_pos hlt]
      exact ⟨show (0 : Int) ≤ DAILY_CREDITS by decide, Or.inr rfl⟩
    · rw [if_neg hlt]
      exact ⟨h0, Or.inl rfl⟩
  · intro env now req st u u' hu h0 hu'
    by_cases he : pyStrip pyIsSpace (req.topic.getD "") = ""
    · rw [generate_empty_400 env now req st he] at hu'
      rw [hu] at hu'
      cases hu'
      exact ⟨h0, Or.inl rfl⟩
    · by_cases hz : u.credits ≤ 0
      · rw [generate_gate_402 env now req st u hu he hz] at hu'
        rw [hu] at hu'
        cases hu'
        exact ⟨h0, Or.inl rfl⟩
      · have hpos : 0 < u.credits := by omega
        by_cases hg : is_greeting (pyStrip pyIsSpace (req.topic.getD ""))
            = true
        · rw [generate_greeting_path env now req st u _ hu hpos rfl he hg]
            at hu'
          rw [hu] at hu'
          cases hu'
          exact ⟨h0, Or.inl rfl⟩
        · rw [Bool.not_eq_true] at hg
          rcases hc : get_ai_client env with _ | ⟨e | r⟩
          · rw [generate_ai_path env now req st u _ FALLBACK_RESPONSE hu
              hpos rfl he hg (Or.inr ⟨hc, rfl⟩)] at hu'
            cases hu'
            exact ⟨show (0 : Int) ≤ u.credits - 1 by omega,
              Or.inr ⟨hpos, rfl⟩⟩
          · rw [generate_invoke_raises_500 env now req st u _ e hu hpos rfl
              he hg hc] at hu'
            rw [hu] at hu'
            cases hu'
            exact ⟨h0, Or.inl rfl⟩
          · rw [generate_ai_path env now req st u _ r hu hpos rfl he hg
              (Or.inl hc)] at hu'
            cases hu'
            exact ⟨show (0 : Int) ≤ u.credits - 1 by omega,
              Or.inr ⟨hpos, rfl⟩⟩

/-- Witness for C10: the reset and handler conjuncts at concrete
records. -/
theorem c10_credits_nonneg_invariant_witness :
    (0 ≤ (u_five.reset_credits_if_needed ⟨101, 0⟩).credits) ∧
    (0 ≤ ({ u_five with credits := 4 } : User).credits) :=
  ⟨(c10_credits_nonneg_invariant.2.1 u_five ⟨101, 0⟩ (by decide)).1,
   (c10_credits_nonneg_invariant.2.2 env_off ⟨100, 1⟩
      ⟨some "algebra", none, none⟩ ⟨some u_five, []⟩ u_five
      { u_five with credits := 4 } rfl (by decide) (by rfl)).1⟩

end EduWrite
